import Mathlib

/-!
Verification development for the SSPR GIS spatial decision-support engine.

The definitions below are shallow embeddings of the TypeScript source:
the priority-zone scoring pipeline (`computePriorityZones` together with its
helpers `distanceMeters`, `nearWaterway`, the grid aggregation, cell scoring,
normalisation, labelling, filtering and sorting stages), the nearest-waterway
locator (`nearestWaterwayMap` / `issueEntry` / `scanFeatures`), and the
work-queue distance helper `haversineDistance`.

Numbers are modelled exactly: the rational arithmetic of the scoring pipeline
over `ℚ`, and the trigonometric great-circle formulas over `ℝ`.  JavaScript's
`Math.round` is modelled as `jsRound` (round half toward positive infinity),
`Math.atan2` as `atan2`.  GeoJSON features are modelled as a property bag
`Feat`; JavaScript string-or-undefined properties become `Option String`, and
the `x || d` defaulting idiom becomes `orDefault` (the empty string is falsy).
A `Map` keyed by the `toFixed(5)` string of the rounded cell coordinates is
modelled as an association list keyed by the rounded rational pair itself
(distinct keys of the relevant grids are farther apart than the 5-decimal
rounding, so the keys coincide); insertion order is preserved, as for a JS
`Map`.  The external `@turf/turf` distance backend used by the locator is a
parameter `d`; a feature on which it throws, or whose geometry is missing or
not line-typed, is modelled by the value `none`.
-/

/-- GeoJSON geometry, as a tagged union.  Coordinates are `(lon, lat)` pairs,
following the GeoJSON axis order used throughout the source. -/
inductive Geometry where
  | point (c : ℚ × ℚ)
  | lineString (coords : List (ℚ × ℚ))
  | multiLineString (lines : List (List (ℚ × ℚ)))
deriving DecidableEq

/-- A GeoJSON feature as used by the source: a geometry plus the property
fields the two pipelines actually read. -/
structure Feat where
  geom : Option Geometry
  name : Option String
  id : Option String
  severity : Option String
  category : Option String
  status : Option String
deriving DecidableEq

/-- An extracted issue point, as built at the top of `computePriorityZones`. -/
structure Issue where
  lat : ℚ
  lng : ℚ
  severity : String
  category : String
  status : String
deriving DecidableEq

/-- A grid aggregation bucket: rounded cell coordinates plus member issues. -/
structure Cell where
  lat : ℚ
  lng : ℚ
  issues : List Issue
deriving DecidableEq

/-- The four criteria weights of the scoring pipeline. -/
structure PriorityWeights where
  issueDensity : ℚ
  waterProximity : ℚ
  severityFactor : ℚ
  recurrence : ℚ
deriving DecidableEq

/-- Default weights from the source (`DEFAULT_PRIORITY_WEIGHTS`). -/
def DEFAULT_PRIORITY_WEIGHTS : PriorityWeights :=
  ⟨35/100, 25/100, 25/100, 15/100⟩

/-- Output zone record of `computePriorityZones`. -/
structure PriorityZone where
  lat : ℚ
  lng : ℚ
  score : ℚ
  issueCount : ℕ
  criticalCount : ℕ
  nearWater : Bool
  categories : List String
  label : String
deriving DecidableEq

/-- Entry of the nearest-waterway map (name plus rounded distance in feet). -/
structure NearestResult where
  name : String
  distFt : ℤ
deriving DecidableEq

/-- JavaScript `x || dflt` for an optional string property: `undefined` and
the empty string are falsy and yield the default. -/
def orDefault (o : Option String) (dflt : String) : String :=
  match o with
  | some s => if s = "" then dflt else s
  | none => dflt

/-- JavaScript `Math.round`: round half toward positive infinity. -/
def jsRound (x : ℚ) : ℤ := ⌊x + 1/2⌋

/-- The cell key of a coordinate pair: each coordinate rounded to the nearest
multiple of the grid edge length `g` in degrees
(`Math.round(v / gridDeg) * gridDeg`). -/
def cellKeyOf (g : ℚ) (lat lng : ℚ) : ℚ × ℚ :=
  ((jsRound (lat / g) : ℚ) * g, (jsRound (lng / g) : ℚ) * g)

/-- Insert an issue into the cell list under a given key, appending a fresh
cell at the end when the key is new (JS `Map` insertion order). -/
def insertAt (k : ℚ × ℚ) (i : Issue) : List Cell → List Cell
  | [] => [⟨k.1, k.2, [i]⟩]
  | c :: cs =>
    if c.lat = k.1 ∧ c.lng = k.2 then ⟨c.lat, c.lng, c.issues ++ [i]⟩ :: cs
    else c :: insertAt k i cs

/-- One step of the grid aggregation loop. -/
def insertIssue (g : ℚ) (cs : List Cell) (i : Issue) : List Cell :=
  insertAt (cellKeyOf g i.lat i.lng) i cs

/-- The grid aggregator: bin every issue by its rounded cell key. -/
def gridCells (g : ℚ) (issues : List Issue) : List Cell :=
  issues.foldl (insertIssue g) []

/-- Extraction of issue points from the issue feature collection: keep `Point`
features and default the `severity`, `category` and `status` properties. -/
def extractIssues (fs : List Feat) : List Issue :=
  fs.filterMap fun f =>
    match f.geom with
    | some (.point c) =>
      some ⟨c.2, c.1, orDefault f.severity ("medium"),
        orDefault f.category ("unknown"), orDefault f.status ("reported")⟩
    | _ => none

/-- `SEVERITY_SCORES[severity] || 0.4` from the source. -/
def sevScore (s : String) : ℚ :=
  if s = "critical" then 1
  else if s = "high" then 75/100
  else if s = "medium" then 40/100
  else if s = "low" then 15/100
  else 40/100

/-- Accumulator form of first-occurrence deduplication. -/
def dedupAux : List String → List String → List String
  | [], acc => acc
  | s :: rest, acc => dedupAux rest (if acc.contains s then acc else acc ++ [s])

/-- JS `new Set(xs)` spread back to a list: first occurrences, in order. -/
def dedupFirst (l : List String) : List String := dedupAux l []

/-- Density sub-score: `min(issueCount / 8, 1)`. -/
def densityScore (c : Cell) : ℚ := min ((c.issues.length : ℚ) / 8) 1

/-- Severity sub-score: mean of the per-issue severity scores. -/
def severityFactor (c : Cell) : ℚ :=
  (c.issues.foldl (fun s i => s + sevScore i.severity) 0) / (c.issues.length : ℚ)

/-- Recurrence sub-score: `min(distinctCategoryCount / 4, 1)`. -/
def recurrenceScore (c : Cell) : ℚ :=
  min (((dedupFirst (c.issues.map (·.category))).length : ℚ) / 4) 1

/-- Count of critical-or-high issues in a cell. -/
def criticalCountOf (c : Cell) : ℕ :=
  (c.issues.filter fun i => i.severity = "critical" || i.severity = "high").length

/-- JavaScript `Math.atan2 y x` on real numbers (signed zeros aside). -/
noncomputable def atan2 (y x : ℝ) : ℝ :=
  if 0 < x then Real.arctan (y / x)
  else if x < 0 then
    (if y < 0 then Real.arctan (y / x) - Real.pi else Real.arctan (y / x) + Real.pi)
  else if 0 < y then Real.pi / 2
  else if y < 0 then -(Real.pi / 2)
  else 0

/-- The scoring pipeline's great-circle distance in meters (`distanceMeters`
in the source), Earth radius 6371000 m. -/
noncomputable def distanceMeters (lat1 lng1 lat2 lng2 : ℝ) : ℝ :=
  let dLat := (lat2 - lat1) * Real.pi / 180
  let dLng := (lng2 - lng1) * Real.pi / 180
  let a := Real.sin (dLat / 2) ^ 2 +
    Real.cos (lat1 * Real.pi / 180) * Real.cos (lat2 * Real.pi / 180) *
      Real.sin (dLng / 2) ^ 2
  6371000 * 2 * atan2 (Real.sqrt a) (Real.sqrt (1 - a))

/-- The work queue's great-circle distance in miles (`haversineDistance` in
`WorkQueue.tsx`), Earth radius 3958.8 mi — an independent copy of the
formula with its own radius constant, kept duplicated as in the source. -/
noncomputable def haversineDistance (lat1 lon1 lat2 lon2 : ℝ) : ℝ :=
  let dLat := (lat2 - lat1) * Real.pi / 180
  let dLon := (lon2 - lon1) * Real.pi / 180
  let a := Real.sin (dLat / 2) ^ 2 +
    Real.cos (lat1 * Real.pi / 180) * Real.cos (lat2 * Real.pi / 180) *
      Real.sin (dLon / 2) ^ 2
  3958.8 * 2 * atan2 (Real.sqrt a) (Real.sqrt (1 - a))

/-- The vertices scanned by `nearWaterway`: the coordinates of a `LineString`,
all coordinates of a `MultiLineString`, nothing otherwise. -/
def geomVertices : Option Geometry → List (ℚ × ℚ)
  | some (.lineString cs) => cs
  | some (.multiLineString ls) => ls.flatten
  | _ => []

/-- The source's `nearWaterway` check: some vertex of some waterway feature's
line geometry lies strictly within `meters` of the point (vertices only —
the loop never measures to the interior of a segment). -/
def nearWaterway (lat lng : ℚ) (ws : List Feat) (meters : ℝ) : Prop :=
  ∃ f ∈ ws, ∃ c ∈ geomVertices f.geom,
    distanceMeters (lat : ℝ) (lng : ℝ) (c.2 : ℝ) (c.1 : ℝ) < meters

/-- The `isNearWater` boolean computed for a cell (threshold 150 m). -/
noncomputable def isNearWater (ws : List Feat) (c : Cell) : Bool :=
  letI := Classical.propDecidable (nearWaterway c.lat c.lng ws 150)
  if nearWaterway c.lat c.lng ws 150 then true else false

/-- Water sub-score: `isNearWater ? 1.0 : 0.0`. -/
noncomputable def waterScoreOf (ws : List Feat) (c : Cell) : ℚ :=
  if isNearWater ws c then 1 else 0

/-- The weighted raw score of a cell. -/
noncomputable def rawScoreOf (ws : List Feat) (w : PriorityWeights) (c : Cell) : ℚ :=
  densityScore c * w.issueDensity +
  waterScoreOf ws c * w.waterProximity +
  severityFactor c * w.severityFactor +
  recurrenceScore c * w.recurrence

/-- The zone record pushed for a cell (label still empty at this stage). -/
noncomputable def scoreCell (ws : List Feat) (w : PriorityWeights) (c : Cell) :
    PriorityZone :=
  ⟨c.lat, c.lng, rawScoreOf ws w c, c.issues.length, criticalCountOf c,
    isNearWater ws c, dedupFirst (c.issues.map (·.category)), ""⟩

/-- The label thresholds applied to `rawScore / (maxRawScore || 1)`. -/
def labelOf (x : ℚ) : String :=
  if 7/10 < x then "Critical Priority"
  else if 4/10 < x then "High Priority"
  else if 2/10 < x then "Moderate Priority"
  else "Low Priority"

/-- The batch maximum of the raw scores (`Math.max` fold starting at 0). -/
def maxRaw (zones : List PriorityZone) : ℚ :=
  zones.foldl (fun m z => max m z.score) 0

/-- The normalisation-and-labelling map applied to each zone. -/
def finalize (M : ℚ) (z : PriorityZone) : PriorityZone :=
  { z with
    score := if 0 < M then z.score / M else 0,
    label := labelOf (z.score / (if M = 0 then 1 else M)) }

/-- Descending order on zones by score, as the JS comparator
`(a, b) => b.score - a.score` induces. -/
def zge (a b : PriorityZone) : Prop := b.score ≤ a.score

instance : DecidableRel zge := fun a b => inferInstanceAs (Decidable (b.score ≤ a.score))

instance : IsTotal PriorityZone zge := ⟨fun a b => le_total b.score a.score⟩

instance : IsTrans PriorityZone zge := ⟨fun _ _ _ hab hbc => le_trans hbc hab⟩

/-- The descending sort of the zone list. -/
def sortDesc (l : List PriorityZone) : List PriorityZone := List.insertionSort zge l

/-- The tail of the pipeline: normalise against the batch maximum, drop zones
with normalised score at most 0.1, sort descending. -/
def pipelineOut (zones : List PriorityZone) : List PriorityZone :=
  sortDesc (((zones.map (finalize (maxRaw zones))).filter
    fun z => decide ((1/10 : ℚ) < z.score)))

/-- The priority-zone pipeline `computePriorityZones` from the source:
extract issue points, return `[]` on no issues, aggregate into grid cells of
edge `gridSizeMeters / 111320` degrees, score every (non-empty) cell,
normalise, label, filter and sort. -/
noncomputable def computePriorityZones (issueData waterwayData _trailData : List Feat)
    (w : PriorityWeights) (gridSizeMeters : ℚ) : List PriorityZone :=
  let issues := extractIssues issueData
  if issues = [] then []
  else
    pipelineOut
      (((gridCells (gridSizeMeters / 111320) issues).filter
        fun c => !c.issues.isEmpty).map (scoreCell waterwayData w))

/-- JavaScript's `props.name || "Unnamed waterway"`. -/
def nameOrDefault (o : Option String) : String := orDefault o ("Unnamed waterway")

/-- Minimum over a list of optional distances, modelling
`Math.min(...)` over the constituent lines of a `MultiLineString` inside the
locator's `try`: an empty list gives `Infinity` and a thrown evaluation gives
no value — both modelled as `none`. -/
def minOptions : List (Option ℚ) → Option ℚ
  | [] => none
  | [o] => o
  | o :: os =>
    match o, minOptions os with
    | some a, some b => some (min a b)
    | _, _ => none

/-- Distance from a point to a single waterway feature, through the external
distance backend `d`: a `LineString` is measured directly, a
`MultiLineString` by the minimum over its lines, anything else is skipped. -/
def evalFeature (d : (ℚ × ℚ) → List (ℚ × ℚ) → Option ℚ) (pt : ℚ × ℚ)
    (f : Feat) : Option ℚ :=
  match f.geom with
  | some (.lineString cs) => d pt cs
  | some (.multiLineString ls) => minOptions (ls.map (d pt))
  | _ => none

/-- The locator's inner loop: fold over the waterway features keeping the
running `(closestName, minDist)` (`none` models `minDist = Infinity`), with a
strict improvement test as in the source. -/
def scanFeatures (d : (ℚ × ℚ) → List (ℚ × ℚ) → Option ℚ) (pt : ℚ × ℚ)
    (acc : Option (String × ℚ)) : List Feat → Option (String × ℚ)
  | [] => acc
  | f :: fs =>
    scanFeatures d pt
      (match evalFeature d pt f, acc with
       | some dist, none => some (nameOrDefault f.name, dist)
       | some dist, some (n, m) =>
         if dist < m then some (nameOrDefault f.name, dist) else some (n, m)
       | none, a => a) fs

/-- The map entry produced for one issue feature: requires `Point` geometry
and a truthy `id`, then rounds the minimal distance to whole feet. -/
def issueEntry (d : (ℚ × ℚ) → List (ℚ × ℚ) → Option ℚ) (wws : List Feat)
    (f : Feat) : Option (String × NearestResult) :=
  match f.geom, f.id with
  | some (.point c), some i =>
    if i = "" then none
    else
      match scanFeatures d c none wws with
      | some (n, m) => some (i, ⟨n, jsRound m⟩)
      | none => none
  | _, _ => none

/-- The per-issue nearest-waterway map (`nearestWaterwayMap` in the source),
as an association list in issue order; an empty waterway collection yields an
empty map at once. -/
def nearestWaterwayMap (d : (ℚ × ℚ) → List (ℚ × ℚ) → Option ℚ)
    (issueFeats wws : List Feat) : List (String × NearestResult) :=
  if wws.isEmpty then [] else issueFeats.filterMap (issueEntry d wws)

/-- Modelled from the spec: §4.1's `pointToSegmentDistance` measures "the
minimum distance from a point to any location on a finite segment (not just
its endpoints)".  The implementation of that primitive lives in the external
`@turf/turf` library, not in this repository, so a location on the segment
from `a` to `b` is modelled metrically: a point `q` lies on a shortest
great-circle path from `a` to `b` exactly when the distances satisfy
`d(a,q) + d(q,b) = d(a,b)`. -/
def onSegment (aLat aLng qLat qLng bLat bLng : ℝ) : Prop :=
  distanceMeters aLat aLng qLat qLng + distanceMeters qLat qLng bLat bLng =
    distanceMeters aLat aLng bLat bLng

/-- The consecutive-vertex segments of a feature's line geometry. -/
def segmentsOf : Option Geometry → List ((ℚ × ℚ) × (ℚ × ℚ))
  | some (.lineString cs) => cs.zip cs.tail
  | some (.multiLineString ls) => (ls.map fun cs => cs.zip cs.tail).flatten
  | _ => []

/-- Modelled from the spec: the cell center is within `m` meters of some
location on some segment of some waterway's line geometry (segment locations
per `onSegment`, distances per the great-circle primitive §4.1). -/
def specNearSegment (lat lng : ℚ) (ws : List Feat) (m : ℝ) : Prop :=
  ∃ f ∈ ws, ∃ s ∈ segmentsOf f.geom, ∃ qLat qLng : ℝ,
    onSegment (s.1.2 : ℝ) (s.1.1 : ℝ) qLat qLng (s.2.2 : ℝ) (s.2.1 : ℝ) ∧
    distanceMeters (lat : ℝ) (lng : ℝ) qLat qLng < m


/-- A single issue feature at the origin with no optional properties set
(severity, category and status take their defaults). -/
def issueMedium : Feat := ⟨some (.point (0, 0)), none, some ("i1"), none, none, none⟩

/-- A critical-severity erosion issue feature at the origin. -/
def issueCritErosion1 : Feat :=
  ⟨some (.point (0, 0)), none, some ("i1"), some ("critical"), some ("erosion"), none⟩

/-- A second critical-severity erosion issue feature at the origin. -/
def issueCritErosion2 : Feat :=
  ⟨some (.point (0, 0)), none, some ("i2"), some ("critical"), some ("erosion"), none⟩

/-- A waterway whose line passes through the origin (one vertex there). -/
def wwAtOrigin : Feat :=
  ⟨some (.lineString [(0, 0), (1, 0)]), some ("Dutch Creek"), none, none, none, none⟩

/-- A waterway running along the equator from 60°W to 60°E: its segment
passes through the origin but both vertices are thousands of kilometers
away. -/
def wwEquatorFar : Feat :=
  ⟨some (.lineString [(-60, 0), (60, 0)]), some ("Equator Creek"), none, none, none, none⟩

/-! ### Lemmas about the nearest-waterway locator -/

lemma scanFeatures_none_iff (d : (ℚ × ℚ) → List (ℚ × ℚ) → Option ℚ) (pt : ℚ × ℚ) :
    ∀ (fs : List Feat) (acc : Option (String × ℚ)),
      scanFeatures d pt acc fs = none ↔
        acc = none ∧ ∀ f ∈ fs, evalFeature d pt f = none := by
  intro fs
  induction fs with
  | nil => intro acc; simp [scanFeatures]
  | cons f fs ih =>
    intro acc
    cases heval : evalFeature d pt f with
    | none =>
      rcases acc with _ | ⟨n, m⟩ <;>
        simp [scanFeatures, heval, ih, and_assoc]
    | some v =>
      rcases acc with _ | ⟨n, m⟩
      · simp only [scanFeatures, heval, ih]
        simp [heval]
      · simp only [scanFeatures, heval, ih]
        by_cases hvm : v < m <;> simp [hvm, heval]

lemma scanFeatures_acc_spec (d : (ℚ × ℚ) → List (ℚ × ℚ) → Option ℚ) (pt : ℚ × ℚ) :
    ∀ (fs : List Feat) (n : String) (m : ℚ),
      ∃ p : String × ℚ, scanFeatures d pt (some (n, m)) fs = some p ∧ p.2 ≤ m ∧
        (∀ f ∈ fs, ∀ v, evalFeature d pt f = some v → p.2 ≤ v) ∧
        (p = (n, m) ∨
          ∃ f ∈ fs, evalFeature d pt f = some p.2 ∧ p.1 = nameOrDefault f.name) := by
  intro fs
  induction fs with
  | nil =>
    intro n m
    exact ⟨(n, m), rfl, le_refl _, by simp, Or.inl rfl⟩
  | cons f fs ih =>
    intro n m
    cases heval : evalFeature d pt f with
    | none =>
      obtain ⟨p, hp, hle, hall, hattr⟩ := ih n m
      refine ⟨p, ?_, hle, ?_, ?_⟩
      · simpa [scanFeatures, heval] using hp
      · intro g hg v hv
        rcases List.mem_cons.mp hg with hg | hg
        · rw [hg] at hv; simp [heval] at hv
        · exact hall g hg v hv
      · rcases hattr with h | ⟨g, hg, hgv, hgn⟩
        · exact Or.inl h
        · exact Or.inr ⟨g, List.mem_cons_of_mem _ hg, hgv, hgn⟩
    | some v =>
      by_cases hvm : v < m
      · obtain ⟨p, hp, hle, hall, hattr⟩ := ih (nameOrDefault f.name) v
        refine ⟨p, ?_, le_of_lt (lt_of_le_of_lt hle hvm), ?_, ?_⟩
        · simpa [scanFeatures, heval, hvm] using hp
        · intro g hg v' hv'
          rcases List.mem_cons.mp hg with hg | hg
          · rw [hg] at hv'; rw [heval] at hv'
            exact (Option.some_inj.mp hv') ▸ hle
          · exact hall g hg v' hv'
        · rcases hattr with h | ⟨g, hg, hgv, hgn⟩
          · refine Or.inr ⟨f, List.mem_cons_self _ _, ?_, ?_⟩
            · rw [heval, h]
            · rw [h]
          · exact Or.inr ⟨g, List.mem_cons_of_mem _ hg, hgv, hgn⟩
      · obtain ⟨p, hp, hle, hall, hattr⟩ := ih n m
        refine ⟨p, ?_, hle, ?_, ?_⟩
        · simpa [scanFeatures, heval, hvm] using hp
        · intro g hg v' hv'
          rcases List.mem_cons.mp hg with hg | hg
          · rw [hg] at hv'; rw [heval] at hv'
            exact (Option.some_inj.mp hv') ▸ le_trans hle (le_of_not_lt hvm)
          · exact hall g hg v' hv'
        · rcases hattr with h | ⟨g, hg, hgv, hgn⟩
          · exact Or.inl h
          · exact Or.inr ⟨g, List.mem_cons_of_mem _ hg, hgv, hgn⟩

lemma scanFeatures_min (d : (ℚ × ℚ) → List (ℚ × ℚ) → Option ℚ) (pt : ℚ × ℚ) :
    ∀ fs : List Feat, (∃ f ∈ fs, ∃ v, evalFeature d pt f = some v) →
      ∃ fm ∈ fs, ∃ vm, evalFeature d pt fm = some vm ∧
        (∀ f ∈ fs, ∀ v, evalFeature d pt f = some v → vm ≤ v) ∧
        scanFeatures d pt none fs = some (nameOrDefault fm.name, vm) := by
  intro fs
  induction fs with
  | nil => rintro ⟨f, hf, -⟩; exact absurd hf (List.not_mem_nil f)
  | cons f fs ih =>
    intro hex
    cases heval : evalFeature d pt f with
    | some v =>
      obtain ⟨p, hp, hle, hall, hattr⟩ := scanFeatures_acc_spec d pt fs (nameOrDefault f.name) v
      have hscan : scanFeatures d pt none (f :: fs) = some p := by
        simpa [scanFeatures, heval] using hp
      rcases hattr with h | ⟨g, hg, hgv, hgn⟩
      · refine ⟨f, List.mem_cons_self _ _, v, heval, ?_, ?_⟩
        · intro g hg v' hv'
          rcases List.mem_cons.mp hg with hg | hg
          · rw [hg] at hv'; rw [heval] at hv'
            exact le_of_eq (Option.some_inj.mp hv')
          · have := hall g hg v' hv'
            rw [h] at this; exact this
        · rw [hscan, h]
      · refine ⟨g, List.mem_cons_of_mem _ hg, p.2, hgv, ?_, ?_⟩
        · intro g' hg' v' hv'
          rcases List.mem_cons.mp hg' with hg' | hg'
          · rw [hg'] at hv'; rw [heval] at hv'
            exact (Option.some_inj.mp hv') ▸ hle
          · exact hall g' hg' v' hv'
        · rw [hscan, ← hgn]
    | none =>
      have hex' : ∃ g ∈ fs, ∃ v, evalFeature d pt g = some v := by
        obtain ⟨g, hg, v, hv⟩ := hex
        rcases List.mem_cons.mp hg with hg | hg
        · rw [hg] at hv; rw [heval] at hv; exact absurd hv (by simp)
        · exact ⟨g, hg, v, hv⟩
      obtain ⟨fm, hfm, vm, hvm, hall, hscan⟩ := ih hex'
      refine ⟨fm, List.mem_cons_of_mem _ hfm, vm, hvm, ?_, ?_⟩
      · intro g hg v hv
        rcases List.mem_cons.mp hg with hg | hg
        · rw [hg] at hv; simp [heval] at hv
        · exact hall g hg v hv
      · simpa [scanFeatures, heval] using hscan

lemma scanFeatures_skip (d : (ℚ × ℚ) → List (ℚ × ℚ) → Option ℚ) (pt : ℚ × ℚ)
    (f : Feat) (hf : evalFeature d pt f = none) :
    ∀ (ws₁ ws₂ : List Feat) (acc : Option (String × ℚ)),
      scanFeatures d pt acc (ws₁ ++ f :: ws₂) = scanFeatures d pt acc (ws₁ ++ ws₂) := by
  intro ws₁
  induction ws₁ with
  | nil =>
    intro ws₂ acc
    rcases acc with _ | ⟨n, m⟩ <;> simp [scanFeatures, hf]
  | cons g ws₁ ih =>
    intro ws₂ acc
    simp only [List.cons_append, scanFeatures]
    exact ih ws₂ _

lemma issueEntry_skip (d : (ℚ × ℚ) → List (ℚ × ℚ) → Option ℚ) (f : Feat)
    (hf : ∀ pt, evalFeature d pt f = none) (ws₁ ws₂ : List Feat) (x : Feat) :
    issueEntry d (ws₁ ++ f :: ws₂) x = issueEntry d (ws₁ ++ ws₂) x := by
  unfold issueEntry
  rcases x with ⟨geom, name, id, sv, cat, st⟩
  rcases geom with _ | g
  · rfl
  rcases g with c | cs | ls
  · rcases id with _ | i
    · rfl
    · simp only
      rw [scanFeatures_skip d c f (hf c) ws₁ ws₂ none]
  · rfl
  · rfl

/-- Claim C5: a waterway feature whose geometry is uncomputable (missing or
non-line geometry, or a geometry on which the external distance backend
throws — modelled as the backend answering `none` for every point) is skipped
without changing the rest of the nearest-waterway map and never aborts the
batch; and an issue's entry is absent exactly when no feature yields a
computable distance. -/
theorem claim_C5_malformed_feature_isolated
    (d : (ℚ × ℚ) → List (ℚ × ℚ) → Option ℚ) (issues ws₁ ws₂ : List Feat)
    (f : Feat) (hf : ∀ pt, evalFeature d pt f = none) :
    nearestWaterwayMap d issues (ws₁ ++ f :: ws₂) =
      nearestWaterwayMap d issues (ws₁ ++ ws₂) ∧
    ∀ (ws : List Feat) (g : Feat) (c : ℚ × ℚ) (i : String),
      g.geom = some (.point c) → g.id = some i → i ≠ "" →
      (issueEntry d ws g = none ↔ ∀ f2 ∈ ws, evalFeature d c f2 = none) := by
  constructor
  · by_cases hemp : (ws₁ ++ ws₂) = []
    · rcases List.append_eq_nil.mp hemp with ⟨h1, h2⟩
      subst h1; subst h2
      simp only [List.nil_append, nearestWaterwayMap]
      simp only [List.isEmpty_nil, List.isEmpty_cons, if_true, Bool.false_eq_true, if_false]
      have : ∀ x, issueEntry d [f] x = none := by
        intro x
        unfold issueEntry
        rcases x with ⟨geom, name, id, sv, cat, st⟩
        rcases geom with _ | g
        · rfl
        rcases g with c | cs | ls
        · rcases id with _ | i
          · rfl
          · simp only
            have hscan : scanFeatures d c none [f] = none := by
              simp [scanFeatures_none_iff, hf]
            rw [hscan]
            split <;> rfl
        · rfl
        · rfl
      simp [List.filterMap_eq_nil_iff]
      intro x _
      exact this x
    · have h1 : ¬ (ws₁ ++ f :: ws₂).isEmpty := by
        simp [List.isEmpty_iff]
      have h2 : ¬ (ws₁ ++ ws₂).isEmpty := by
        simp [List.isEmpty_iff, hemp]
      simp only [nearestWaterwayMap, h1, h2, if_false, Bool.false_eq_true]
      apply List.filterMap_congr
      intro x _
      exact issueEntry_skip d f hf ws₁ ws₂ x
  · intro ws g c i hgeom hid hne
    unfold issueEntry
    rw [hgeom, hid]
    simp only [hne, if_false]
    constructor
    · intro h
      cases hscan : scanFeatures d c none ws with
      | none => exact ((scanFeatures_none_iff d c ws none).mp hscan).2
      | some p => rw [hscan] at h; rcases p with ⟨n, m⟩; simp at h
    · intro h
      have : scanFeatures d c none ws = none :=
        (scanFeatures_none_iff d c ws none).mpr ⟨rfl, h⟩
      rw [this]

/-- Claim C6: for an issue point with at least one computable waterway
feature, the locator's entry carries the name of a feature attaining the
global minimum distance over every feature's line geometry, together with
that minimum distance rounded to whole feet. -/
theorem claim_C6_locator_returns_minimum
    (d : (ℚ × ℚ) → List (ℚ × ℚ) → Option ℚ) (wws : List Feat) (c : ℚ × ℚ)
    (i : String) (g : Feat) (f₀ : Feat) (v₀ : ℚ) (hmem : f₀ ∈ wws)
    (h₀ : evalFeature d c f₀ = some v₀) (hg : g.geom = some (.point c))
    (hid : g.id = some i) (hne : i ≠ "") :
    ∃ fm ∈ wws, ∃ vm, evalFeature d c fm = some vm ∧
      (∀ f ∈ wws, ∀ v, evalFeature d c f = some v → vm ≤ v) ∧
      issueEntry d wws g = some (i, ⟨nameOrDefault fm.name, jsRound vm⟩) := by
  obtain ⟨fm, hfm, vm, hvm, hall, hscan⟩ :=
    scanFeatures_min d c wws ⟨f₀, hmem, v₀, h₀⟩
  refine ⟨fm, hfm, vm, hvm, hall, ?_⟩
  unfold issueEntry
  rw [hg, hid]
  simp only [hne, if_false]
  rw [hscan]

/-- Claim C9: an empty issue list produces an empty zone list and an empty
nearest-waterway map, for every waterway collection, weight vector, grid
size and distance backend. -/
theorem claim_C9_empty_input (waterwayData trailData : List Feat)
    (w : PriorityWeights) (g : ℚ) (d : (ℚ × ℚ) → List (ℚ × ℚ) → Option ℚ) :
    computePriorityZones [] waterwayData trailData w g = [] ∧
    nearestWaterwayMap d [] waterwayData = [] := by
  constructor
  · simp [computePriorityZones, extractIssues]
  · unfold nearestWaterwayMap
    split <;> simp

/-! ### Lemmas about the normalisation, filtering and sorting stages -/

lemma mem_sortDesc {z : PriorityZone} {l : List PriorityZone} :
    z ∈ sortDesc l ↔ z ∈ l :=
  (List.perm_insertionSort zge l).mem_iff

lemma sorted_sortDesc (l : List PriorityZone) : List.Sorted zge (sortDesc l) :=
  List.sorted_insertionSort zge l

lemma foldl_max_init_le :
    ∀ (l : List PriorityZone) (a : ℚ), a ≤ l.foldl (fun m z => max m z.score) a := by
  intro l
  induction l with
  | nil => intro a; exact le_refl a
  | cons c l ih =>
    intro a
    exact le_trans (le_max_left a c.score) (ih (max a c.score))

lemma foldl_max_mem_le :
    ∀ (l : List PriorityZone) (a : ℚ) (z : PriorityZone), z ∈ l →
      z.score ≤ l.foldl (fun m z => max m z.score) a := by
  intro l
  induction l with
  | nil => intro a z hz; exact absurd hz (List.not_mem_nil z)
  | cons c l ih =>
    intro a z hz
    rcases List.mem_cons.mp hz with hz | hz
    · subst hz
      exact le_trans (le_max_right a z.score) (foldl_max_init_le l (max a z.score))
    · exact ih (max a c.score) z hz

lemma foldl_max_choice :
    ∀ (l : List PriorityZone) (a : ℚ),
      l.foldl (fun m z => max m z.score) a = a ∨
        ∃ z ∈ l, l.foldl (fun m z => max m z.score) a = z.score := by
  intro l
  induction l with
  | nil => intro a; exact Or.inl rfl
  | cons c l ih =>
    intro a
    rcases ih (max a c.score) with h | ⟨z, hz, h⟩
    · rcases max_choice a c.score with hm | hm
      · exact Or.inl (by rw [List.foldl_cons, h, hm])
      · exact Or.inr ⟨c, List.mem_cons_self c l, by rw [List.foldl_cons, h, hm]⟩
    · exact Or.inr ⟨z, List.mem_cons_of_mem _ hz, by rw [List.foldl_cons, h]⟩

lemma maxRaw_nonneg (l : List PriorityZone) : 0 ≤ maxRaw l :=
  foldl_max_init_le l 0

lemma le_maxRaw {l : List PriorityZone} {z : PriorityZone} (h : z ∈ l) :
    z.score ≤ maxRaw l :=
  foldl_max_mem_le l 0 z h

lemma maxRaw_choice (l : List PriorityZone) :
    maxRaw l = 0 ∨ ∃ z ∈ l, maxRaw l = z.score :=
  foldl_max_choice l 0

lemma finalize_score (M : ℚ) (z : PriorityZone) :
    (finalize M z).score = if 0 < M then z.score / M else 0 := rfl

lemma mem_pipelineOut {zones : List PriorityZone} {z : PriorityZone} :
    z ∈ pipelineOut zones ↔
      (∃ y ∈ zones, finalize (maxRaw zones) y = z) ∧ 1/10 < z.score := by
  unfold pipelineOut
  rw [mem_sortDesc, List.mem_filter]
  simp [List.mem_map, decide_eq_true_eq]

lemma pipelineOut_head_ge {zones z zs} (h : pipelineOut zones = z :: zs) :
    ∀ y ∈ pipelineOut zones, y.score ≤ z.score := by
  have hs : List.Sorted zge (pipelineOut zones) := sorted_sortDesc _
  rw [h] at hs
  intro y hy
  rw [h] at hy
  rcases List.mem_cons.mp hy with hy | hy
  · exact le_of_eq (by rw [hy])
  · exact List.rel_of_sorted_cons hs y hy

lemma pipelineOut_head_score_one {zones : List PriorityZone} {z : PriorityZone}
    {zs : List PriorityZone} (h : pipelineOut zones = z :: zs) : z.score = 1 := by
  have hz : z ∈ pipelineOut zones := by rw [h]; exact List.mem_cons_self z zs
  obtain ⟨⟨y, hy, hzeq⟩, hgt⟩ := mem_pipelineOut.mp hz
  have hscore : z.score = if 0 < maxRaw zones then y.score / maxRaw zones else 0 := by
    rw [← hzeq, finalize_score]
  by_cases hM : 0 < maxRaw zones
  · rcases maxRaw_choice zones with hM0 | ⟨y₀, hy₀, hMeq⟩
    · rw [hM0] at hM; exact absurd hM (lt_irrefl 0)
    · have hstar : (finalize (maxRaw zones) y₀).score = 1 := by
        rw [finalize_score, if_pos hM, ← hMeq, div_self (ne_of_gt hM)]
      have hmem : finalize (maxRaw zones) y₀ ∈ pipelineOut zones :=
        mem_pipelineOut.mpr ⟨⟨y₀, hy₀, rfl⟩, by rw [hstar]; norm_num⟩
      have h1le : 1 ≤ z.score := by
        have := pipelineOut_head_ge h _ hmem
        rw [hstar] at this
        exact this
      have hle1 : z.score ≤ 1 := by
        rw [hscore, if_pos hM]
        exact (div_le_one hM).mpr (le_maxRaw hy)
      exact le_antisymm hle1 h1le
  · rw [hscore, if_neg hM] at hgt
    norm_num at hgt

lemma pipelineOut_eq_nil_of_all_zero {zones : List PriorityZone}
    (h : ∀ z ∈ zones, z.score = 0) : pipelineOut zones = [] := by
  have hfilter : ((zones.map (finalize (maxRaw zones))).filter
      fun z => decide ((1/10 : ℚ) < z.score)) = [] := by
    rw [List.filter_eq_nil_iff]
    intro a ha
    obtain ⟨y, hy, hfy⟩ := List.mem_map.mp ha
    have hM : maxRaw zones = 0 := by
      rcases maxRaw_choice zones with h0 | ⟨z, hz, hzeq⟩
      · exact h0
      · rw [hzeq]; exact h z hz
    have : a.score = 0 := by
      rw [← hfy, finalize_score, hM]
      norm_num
    simp [this]
  unfold pipelineOut
  rw [hfilter]
  rfl

lemma pipelineOut_mem_bounds {zones : List PriorityZone} {z : PriorityZone}
    (hz : z ∈ pipelineOut zones) : 0 ≤ z.score ∧ z.score ≤ 1 ∧ 1/10 < z.score := by
  obtain ⟨⟨y, hy, hzeq⟩, hgt⟩ := mem_pipelineOut.mp hz
  refine ⟨by linarith, ?_, hgt⟩
  have hscore : z.score = if 0 < maxRaw zones then y.score / maxRaw zones else 0 := by
    rw [← hzeq, finalize_score]
  by_cases hM : 0 < maxRaw zones
  · rw [hscore, if_pos hM]
    exact (div_le_one hM).mpr (le_maxRaw hy)
  · rw [hscore, if_neg hM]
    norm_num

/-- Claim C1 (spec §8, §3): whenever `computePriorityZones` returns a
non-empty zone list, the first zone of the descending-sorted output has
normalised score exactly 1. -/
theorem claim_C1_top_zone_normalized_one (issueData waterwayData trailData : List Feat)
    (w : PriorityWeights) (g : ℚ) (z : PriorityZone) (zs : List PriorityZone)
    (h : computePriorityZones issueData waterwayData trailData w g = z :: zs) :
    z.score = 1 := by
  by_cases hemp : extractIssues issueData = []
  · rw [computePriorityZones, hemp] at h
    simp at h
  · rw [computePriorityZones, if_neg hemp] at h
    exact pipelineOut_head_score_one h

/-- Claim C10 (spec §3, §7): every zone returned by `computePriorityZones`
— for arbitrary weight vectors, clamped nowhere — has normalised score in
[0, 1], and strictly above the 0.1 visibility threshold. -/
theorem claim_C10_normalized_score_bounds (issueData waterwayData trailData : List Feat)
    (w : PriorityWeights) (g : ℚ) (z : PriorityZone)
    (hz : z ∈ computePriorityZones issueData waterwayData trailData w g) :
    0 ≤ z.score ∧ z.score ≤ 1 ∧ 1/10 < z.score := by
  by_cases hemp : extractIssues issueData = []
  · rw [computePriorityZones, hemp] at hz
    simp at hz
  · rw [computePriorityZones, if_neg hemp] at hz
    exact pipelineOut_mem_bounds hz

lemma rawScoreOf_zero_weights (ws : List Feat) (c : Cell) :
    rawScoreOf ws ⟨0, 0, 0, 0⟩ c = 0 := by
  unfold rawScoreOf
  simp

/-- Claim C8, amended: with all four weights zero, every cell's raw score is
0 and `computePriorityZones` returns the empty zone list (no
division-by-zero error). -/
theorem claim_C8_zero_weights_empty (issueData waterwayData trailData : List Feat)
    (g : ℚ) (cell : Cell) :
    rawScoreOf waterwayData ⟨0, 0, 0, 0⟩ cell = 0 ∧
    computePriorityZones issueData waterwayData trailData ⟨0, 0, 0, 0⟩ g = [] := by
  refine ⟨rawScoreOf_zero_weights waterwayData cell, ?_⟩
  by_cases hemp : extractIssues issueData = []
  · rw [computePriorityZones, hemp]
    simp
  · rw [computePriorityZones, if_neg hemp]
    apply pipelineOut_eq_nil_of_all_zero
    intro z hz
    obtain ⟨c, _, hc⟩ := List.mem_map.mp hz
    rw [← hc]
    exact rawScoreOf_zero_weights waterwayData c

/-! ### Lemmas about the grid rounding -/

lemma jsRound_dist {x y : ℚ} (h : jsRound x = jsRound y) : |x - y| < 1 := by
  unfold jsRound at h
  have hx1 : (⌊x + 1/2⌋ : ℚ) ≤ x + 1/2 := Int.floor_le _
  have hx2 : x + 1/2 < ⌊x + 1/2⌋ + 1 := Int.lt_floor_add_one _
  have hy1 : (⌊y + 1/2⌋ : ℚ) ≤ y + 1/2 := Int.floor_le _
  have hy2 : y + 1/2 < ⌊y + 1/2⌋ + 1 := Int.lt_floor_add_one _
  rw [h] at hx1 hx2
  rw [abs_sub_lt_iff]
  constructor <;> linarith

/-- Claim C3, amended: two issues that the grid aggregator assigns the same
cell key have latitudes and longitudes each strictly within one grid-edge
length (in degrees) of each other; the converse of the claimed direction,
which the counterexample refutes. -/
theorem claim_C3_same_key_within_one_edge (g lat1 lng1 lat2 lng2 : ℚ) (hg : 0 < g)
    (h : cellKeyOf g lat1 lng1 = cellKeyOf g lat2 lng2) :
    |lat1 - lat2| < g ∧ |lng1 - lng2| < g := by
  have hgne : g ≠ 0 := ne_of_gt hg
  have h1 : (jsRound (lat1 / g) : ℚ) * g = (jsRound (lat2 / g) : ℚ) * g :=
    congrArg Prod.fst h
  have h2 : (jsRound (lng1 / g) : ℚ) * g = (jsRound (lng2 / g) : ℚ) * g :=
    congrArg Prod.snd h
  have hr1 : jsRound (lat1 / g) = jsRound (lat2 / g) := by
    have := mul_right_cancel₀ hgne h1
    exact_mod_cast this
  have hr2 : jsRound (lng1 / g) = jsRound (lng2 / g) := by
    have := mul_right_cancel₀ hgne h2
    exact_mod_cast this
  have d1 := jsRound_dist hr1
  have d2 := jsRound_dist hr2
  rw [div_sub_div_same, abs_div, abs_of_pos hg, div_lt_one hg] at d1 d2
  exact ⟨d1, d2⟩

/-- Witness for the amended claim C3 at a concrete grid and point pair. -/
theorem claim_C3_witness :
    (0 < (1 : ℚ)) ∧ cellKeyOf 1 (1/4) 0 = cellKeyOf 1 (1/10) 0 ∧
      (|(1/4 : ℚ) - 1/10| < 1 ∧ |(0 : ℚ) - 0| < 1) :=
  ⟨by norm_num, by norm_num [cellKeyOf, jsRound],
    claim_C3_same_key_within_one_edge 1 (1/4) 0 (1/10) 0 (by norm_num)
      (by norm_num [cellKeyOf, jsRound])⟩

/-- Counterexample to claim C3 as stated: with the default 200 m grid, two
issues only 40/111320 of a degree apart in latitude (about 40 m, well within
one 200 m grid edge) round to different multiples of the grid edge, receive
different cell keys, and land in two distinct grid cells. -/
theorem claim_C3_counterexample :
    |(80/111320 : ℚ) - 120/111320| ≤ (200 : ℚ)/111320 ∧
    cellKeyOf ((200 : ℚ)/111320) (80/111320) 0 ≠
      cellKeyOf ((200 : ℚ)/111320) (120/111320) 0 ∧
    (gridCells ((200 : ℚ)/111320)
      [⟨80/111320, 0, "medium", "trail", "reported"⟩,
       ⟨120/111320, 0, "medium", "trail", "reported"⟩]).length = 2 := by
  refine ⟨by rw [abs_le]; constructor <;> norm_num, ?_, ?_⟩
  · norm_num [cellKeyOf, jsRound, Prod.ext_iff]
  · norm_num [gridCells, insertIssue, insertAt, cellKeyOf, jsRound]

/-! ### Evaluation lemmas for the great-circle distance -/

lemma atan2_sqrt {u θ : ℝ} (hθu : Real.sin θ ^ 2 = u) (h0 : 0 ≤ θ)
    (hπ : θ < Real.pi / 2) : atan2 (Real.sqrt u) (Real.sqrt (1 - u)) = θ := by
  have hπpos := Real.pi_pos
  have hsinnn : 0 ≤ Real.sin θ :=
    Real.sin_nonneg_of_nonneg_of_le_pi h0 (by linarith)
  have hsin : Real.sqrt u = Real.sin θ := by
    rw [← hθu, Real.sqrt_sq_eq_abs, abs_of_nonneg hsinnn]
  have hcospos : 0 < Real.cos θ :=
    Real.cos_pos_of_mem_Ioo ⟨by linarith, hπ⟩
  have hcos : Real.sqrt (1 - u) = Real.cos θ := by
    rw [← hθu, ← Real.cos_sq', Real.sqrt_sq_eq_abs, abs_of_pos hcospos]
  rw [hsin, hcos]
  unfold atan2
  rw [if_pos hcospos, ← Real.tan_eq_sin_div_cos, Real.arctan_tan (by linarith) hπ]

lemma distanceMeters_zero_lat (l1 l2 u θ : ℝ)
    (hu : Real.sin ((l2 - l1) * Real.pi / 180 / 2) ^ 2 = u)
    (hθu : Real.sin θ ^ 2 = u) (h0 : 0 ≤ θ) (hπ : θ < Real.pi / 2) :
    distanceMeters 0 l1 0 l2 = 6371000 * 2 * θ := by
  have hz : ((0 : ℝ) - 0) * Real.pi / 180 / 2 = 0 := by ring
  have hz2 : (0 : ℝ) * Real.pi / 180 = 0 := by ring
  simp only [distanceMeters, hz, hz2, Real.sin_zero, Real.cos_zero]
  have ha : (0 : ℝ) ^ 2 + 1 * 1 * Real.sin ((l2 - l1) * Real.pi / 180 / 2) ^ 2 = u := by
    rw [← hu]; ring
  rw [ha, atan2_sqrt hθu h0 hπ]

lemma dist_same_point : distanceMeters 0 0 0 0 = 0 := by
  have h := distanceMeters_zero_lat 0 0 0 0 (by norm_num) (by simp) (le_refl 0)
    (by positivity)
  rw [h]; ring

lemma dist_sixty {l1 l2 : ℝ} (h : l2 - l1 = 60 ∨ l2 - l1 = -60) :
    distanceMeters 0 l1 0 l2 = 6371000 * 2 * (Real.pi / 6) := by
  have hπpos := Real.pi_pos
  apply distanceMeters_zero_lat l1 l2 (1/4) (Real.pi / 6)
  · rcases h with h | h
    · have harg : (l2 - l1) * Real.pi / 180 / 2 = Real.pi / 6 := by rw [h]; ring
      rw [harg, Real.sin_pi_div_six]; norm_num
    · have harg : (l2 - l1) * Real.pi / 180 / 2 = -(Real.pi / 6) := by rw [h]; ring
      rw [harg, Real.sin_neg, Real.sin_pi_div_six]; norm_num
  · rw [Real.sin_pi_div_six]; norm_num
  · linarith
  · linarith

lemma dist_onetwenty {l1 l2 : ℝ} (h : l2 - l1 = 120) :
    distanceMeters 0 l1 0 l2 = 6371000 * 2 * (Real.pi / 3) := by
  have hπpos := Real.pi_pos
  have hsq : Real.sin (Real.pi / 3) ^ 2 = 3/4 := by
    rw [Real.sin_pi_div_three, div_pow, Real.sq_sqrt (by norm_num : (0:ℝ) ≤ 3)]
    norm_num
  apply distanceMeters_zero_lat l1 l2 (3/4) (Real.pi / 3)
  · have harg : (l2 - l1) * Real.pi / 180 / 2 = Real.pi / 3 := by rw [h]; ring
    rw [harg, hsq]
  · exact hsq
  · linarith
  · linarith

lemma dist_sixty_not_lt (l1 l2 m : ℝ) (h : l2 - l1 = 60 ∨ l2 - l1 = -60)
    (hm : m ≤ 6000000) : ¬ distanceMeters 0 l1 0 l2 < m := by
  rw [dist_sixty h]
  have := Real.pi_gt_three
  nlinarith

lemma dist_hav_scaled (lat1 lon1 lat2 lon2 : ℝ) :
    3958.8 * distanceMeters lat1 lon1 lat2 lon2 =
      6371000 * haversineDistance lat1 lon1 lat2 lon2 := by
  simp only [distanceMeters, haversineDistance]
  ring

/-- Claim C4, amended: the two call sites implement one and the same
haversine formula, differing only in their independently rounded Earth-radius
constants (6371000 m against 3958.8 mi), so the exact relation is
`3958.8 · distanceMeters = 6371000 · haversineDistance` — a meters-per-mile
ratio of 6371000/3958.8 ≈ 1609.326, not the exact conversion 1609.344. -/
theorem claim_C4_single_formula_scaled (lat1 lon1 lat2 lon2 : ℝ) :
    3958.8 * distanceMeters lat1 lon1 lat2 lon2 =
      6371000 * haversineDistance lat1 lon1 lat2 lon2 :=
  dist_hav_scaled lat1 lon1 lat2 lon2

/-- Counterexample to claim C4 as stated: at the points (0°,0°) and
(0°,120°) the meters-based distance is not 1609.344 times the miles-based
one — the radius constants 6371000 m and 3958.8 mi · 1609.344 m/mi =
6371071.0272 m disagree. -/
theorem claim_C4_counterexample :
    distanceMeters 0 0 0 120 ≠ 1609.344 * haversineDistance 0 0 0 120 := by
  have hd : distanceMeters 0 0 0 120 = 6371000 * 2 * (Real.pi / 3) :=
    dist_onetwenty (by norm_num)
  have hr := dist_hav_scaled 0 0 0 120
  have hhav : haversineDistance 0 0 0 120 = 3958.8 * 2 * (Real.pi / 3) := by
    rw [hd] at hr
    nlinarith [hr]
  intro heq
  rw [hd, hhav] at heq
  nlinarith [Real.pi_pos, heq]

/-! ### Concrete evaluations of the scoring pipeline -/

lemma nearWaterway_nil (lat lng : ℚ) (m : ℝ) : ¬ nearWaterway lat lng [] m := by
  simp [nearWaterway]

lemma isNearWater_false (ws : List Feat) (la ln : ℚ) (l : List Issue)
    (h : ¬ nearWaterway la ln ws 150) : isNearWater ws ⟨la, ln, l⟩ = false := by
  simp only [isNearWater]
  rw [if_neg h]

lemma isNearWater_true (ws : List Feat) (la ln : ℚ) (l : List Issue)
    (h : nearWaterway la ln ws 150) : isNearWater ws ⟨la, ln, l⟩ = true := by
  simp only [isNearWater]
  rw [if_pos h]

lemma isNearWater_iff {ws : List Feat} {c : Cell} :
    isNearWater ws c = true ↔ nearWaterway c.lat c.lng ws 150 := by
  simp only [isNearWater]
  split <;> simp_all

lemma pipelineOut_single {z : PriorityZone} (hpos : 0 < z.score) :
    pipelineOut [z] = [{ z with score := 1, label := "Critical Priority" }] := by
  have hM : maxRaw [z] = z.score := by
    simp [maxRaw, max_eq_right (le_of_lt hpos)]
  have hne : z.score ≠ 0 := ne_of_gt hpos
  have hfin : finalize (maxRaw [z]) z = { z with score := 1, label := "Critical Priority" } := by
    rw [hM]
    unfold finalize labelOf
    rw [if_pos hpos, div_self hne, if_neg hne, div_self hne]
    norm_num
  unfold pipelineOut
  rw [List.map_singleton, hfin]
  have hkeep : decide ((1/10 : ℚ) <
      ({ z with score := 1, label := "Critical Priority" } : PriorityZone).score) = true := by
    norm_num
  rw [List.filter_singleton, hkeep]
  simp [sortDesc, List.insertionSort, List.orderedInsert]

lemma grid_single_origin (i : Issue) (h1 : i.lat = 0) (h2 : i.lng = 0) :
    gridCells ((200 : ℚ)/111320) [i] = [⟨0, 0, [i]⟩] := by
  simp only [gridCells, List.foldl_cons, List.foldl_nil, insertIssue, insertAt,
    cellKeyOf, jsRound, h1, h2]
  norm_num

lemma eval_single_medium :
    computePriorityZones [issueMedium] [] [] DEFAULT_PRIORITY_WEIGHTS 200 =
      [⟨0, 0, 1, 1, 0, false, ["unknown"], "Critical Priority"⟩] := by
  have hiss : extractIssues [issueMedium] = [⟨0, 0, "medium", "unknown", "reported"⟩] := rfl
  have hnw : ¬ nearWaterway (0 : ℚ) 0 [] 150 := nearWaterway_nil 0 0 150
  have hscore : scoreCell [] DEFAULT_PRIORITY_WEIGHTS
      ⟨0, 0, [⟨0, 0, "medium", "unknown", "reported"⟩]⟩ =
      ⟨0, 0, 29/160, 1, 0, false, ["unknown"], ""⟩ := by
    unfold scoreCell rawScoreOf waterScoreOf
    rw [isNearWater_false [] 0 0 _ hnw]
    norm_num [densityScore, severityFactor, recurrenceScore, criticalCountOf,
      sevScore, dedupFirst, dedupAux, DEFAULT_PRIORITY_WEIGHTS]
    refine ⟨?_, by decide, by decide⟩
    rw [if_neg (by decide : ¬("medium" : String) = "critical"),
      if_neg (by decide : ¬("medium" : String) = "high")]
    norm_num
  simp only [computePriorityZones, hiss]
  rw [if_neg (List.cons_ne_nil _ _)]
  rw [grid_single_origin _ rfl rfl]
  simp only [List.filter, List.isEmpty_cons, Bool.not_false, List.map_cons, List.map_nil]
  rw [hscore]
  rw [pipelineOut_single (by norm_num)]

/-- Witness for claim C1 at a concrete input with a non-empty output. -/
theorem claim_C1_witness :
    computePriorityZones [issueMedium] [] [] DEFAULT_PRIORITY_WEIGHTS 200 =
      (⟨0, 0, 1, 1, 0, false, ["unknown"], "Critical Priority"⟩ : PriorityZone) :: [] ∧
    (⟨0, 0, 1, 1, 0, false, ["unknown"], "Critical Priority"⟩ : PriorityZone).score = 1 :=
  ⟨eval_single_medium,
    claim_C1_top_zone_normalized_one [issueMedium] [] [] DEFAULT_PRIORITY_WEIGHTS 200
      ⟨0, 0, 1, 1, 0, false, ["unknown"], "Critical Priority"⟩ [] eval_single_medium⟩

/-- Witness for claim C10 at a concrete zone of a concrete run. -/
theorem claim_C10_witness :
    (⟨0, 0, 1, 1, 0, false, ["unknown"], "Critical Priority"⟩ : PriorityZone) ∈
      computePriorityZones [issueMedium] [] [] DEFAULT_PRIORITY_WEIGHTS 200 ∧
    (0 ≤ ((⟨0, 0, 1, 1, 0, false, ["unknown"], "Critical Priority"⟩ : PriorityZone)).score ∧
      (⟨0, 0, 1, 1, 0, false, ["unknown"], "Critical Priority"⟩ : PriorityZone).score ≤ 1 ∧
      1/10 < (⟨0, 0, 1, 1, 0, false, ["unknown"], "Critical Priority"⟩ : PriorityZone).score) := by
  have hmem : (⟨0, 0, 1, 1, 0, false, ["unknown"], "Critical Priority"⟩ : PriorityZone) ∈
      computePriorityZones [issueMedium] [] [] DEFAULT_PRIORITY_WEIGHTS 200 := by
    rw [eval_single_medium]
    exact List.mem_singleton_self _
  exact ⟨hmem, claim_C10_normalized_score_bounds [issueMedium] [] []
    DEFAULT_PRIORITY_WEIGHTS 200 _ hmem⟩

/-- Claim C2, amended: in every zone returned by `computePriorityZones`, the
near-water flag (and hence the binary water sub-score feeding the raw score)
is set exactly when some VERTEX of some waterway's line geometry lies within
150 m of the cell center — the loop never measures to the interior of a
segment, so this is weaker than the spec's §4.1 point-to-segment test. -/
theorem claim_C2_water_score_vertex_only (issueData waterwayData trailData : List Feat)
    (w : PriorityWeights) (g : ℚ) (z : PriorityZone)
    (hz : z ∈ computePriorityZones issueData waterwayData trailData w g) :
    (z.nearWater = true ↔ nearWaterway z.lat z.lng waterwayData 150) := by
  by_cases hemp : extractIssues issueData = []
  · rw [computePriorityZones, hemp] at hz
    simp at hz
  · rw [computePriorityZones, if_neg hemp] at hz
    obtain ⟨⟨y, hy, hzeq⟩, -⟩ := mem_pipelineOut.mp hz
    obtain ⟨c, -, hc⟩ := List.mem_map.mp hy
    subst hzeq
    subst hc
    simp only [finalize, scoreCell]
    exact isNearWater_iff

/-- Witness for the amended claim C2 at a concrete run. -/
theorem claim_C2_witness :
    (⟨0, 0, 1, 1, 0, false, ["unknown"], "Critical Priority"⟩ : PriorityZone) ∈
      computePriorityZones [issueMedium] [] [] DEFAULT_PRIORITY_WEIGHTS 200 ∧
    ((⟨0, 0, 1, 1, 0, false, ["unknown"], "Critical Priority"⟩ : PriorityZone).nearWater = true ↔
      nearWaterway (⟨0, 0, 1, 1, 0, false, ["unknown"], "Critical Priority"⟩ : PriorityZone).lat
        (⟨0, 0, 1, 1, 0, false, ["unknown"], "Critical Priority"⟩ : PriorityZone).lng [] 150) := by
  have hmem : (⟨0, 0, 1, 1, 0, false, ["unknown"], "Critical Priority"⟩ : PriorityZone) ∈
      computePriorityZones [issueMedium] [] [] DEFAULT_PRIORITY_WEIGHTS 200 := by
    rw [eval_single_medium]
    exact List.mem_singleton_self _
  exact ⟨hmem, claim_C2_water_score_vertex_only [issueMedium] [] []
    DEFAULT_PRIORITY_WEIGHTS 200 _ hmem⟩

/-- Counterexample to claim C8 as stated: the weight vector (1, −1, 0, 0)
sums to 0, yet a single-issue run returns a non-empty zone list. -/
theorem claim_C8_counterexample :
    ((1 : ℚ) + (-1) + 0 + 0 = 0) ∧
    computePriorityZones [issueMedium] [] [] ⟨1, -1, 0, 0⟩ 200 ≠ [] := by
  refine ⟨by norm_num, ?_⟩
  have hiss : extractIssues [issueMedium] = [⟨0, 0, "medium", "unknown", "reported"⟩] := rfl
  have hnw : ¬ nearWaterway (0 : ℚ) 0 [] 150 := nearWaterway_nil 0 0 150
  have hscore : scoreCell [] ⟨1, -1, 0, 0⟩
      ⟨0, 0, [⟨0, 0, "medium", "unknown", "reported"⟩]⟩ =
      ⟨0, 0, 1/8, 1, 0, false, ["unknown"], ""⟩ := by
    unfold scoreCell rawScoreOf waterScoreOf
    rw [isNearWater_false [] 0 0 _ hnw]
    norm_num [densityScore, severityFactor, recurrenceScore, criticalCountOf,
      sevScore, dedupFirst, dedupAux]
    exact ⟨by decide, by decide⟩
  simp only [computePriorityZones, hiss]
  rw [if_neg (List.cons_ne_nil _ _)]
  rw [grid_single_origin _ rfl rfl]
  simp only [List.filter, List.isEmpty_cons, Bool.not_false, List.map_cons, List.map_nil]
  rw [hscore]
  rw [pipelineOut_single (by norm_num)]
  exact List.cons_ne_nil _ _

lemma not_nearWaterway_equator_far : ¬ nearWaterway 0 0 [wwEquatorFar] 150 := by
  rintro ⟨f, hf, c, hc, hlt⟩
  rw [List.mem_singleton] at hf
  subst hf
  have hverts : geomVertices wwEquatorFar.geom = [((-60 : ℚ), (0 : ℚ)), (60, 0)] := rfl
  rw [hverts] at hc
  rcases List.mem_cons.mp hc with hc | hc
  · subst hc
    push_cast at hlt
    exact dist_sixty_not_lt 0 (-60) 150 (Or.inr (by norm_num)) (by norm_num) hlt
  · rw [List.mem_singleton] at hc
    subst hc
    push_cast at hlt
    exact dist_sixty_not_lt 0 60 150 (Or.inl (by norm_num)) (by norm_num) hlt

lemma specNearSegment_equator_far : specNearSegment 0 0 [wwEquatorFar] 150 := by
  refine ⟨wwEquatorFar, List.mem_singleton_self _, (((-60 : ℚ), (0 : ℚ)), ((60 : ℚ), (0 : ℚ))),
    ?_, 0, 0, ?_, ?_⟩
  · have hsegs : segmentsOf wwEquatorFar.geom =
        [(((-60 : ℚ), (0 : ℚ)), ((60 : ℚ), (0 : ℚ)))] := rfl
    rw [hsegs]
    exact List.mem_singleton_self _
  · unfold onSegment
    push_cast
    rw [dist_sixty (Or.inl (by norm_num : (0 : ℝ) - (-60) = 60)),
      dist_sixty (Or.inl (by norm_num : (60 : ℝ) - 0 = 60)),
      dist_onetwenty (by norm_num : (60 : ℝ) - (-60) = 120)]
    ring
  · push_cast
    rw [dist_same_point]
    norm_num

/-- Counterexample to claim C2 as stated: a cell center lying ON a waterway
segment (the equator line from 60°W to 60°E passes through the origin) gets
`waterScore = 0` and `nearWater = false`, because the code only measures
distances to the segment's two vertices, each about 6674 km away — while the
spec's point-to-segment reading (§4.1) puts the cell within 0 m of the
geometry. -/
theorem claim_C2_counterexample :
    computePriorityZones [issueCritErosion1] [wwEquatorFar] [] DEFAULT_PRIORITY_WEIGHTS 200 =
      [⟨0, 0, 1, 1, 1, false, ["erosion"], "Critical Priority"⟩] ∧
    waterScoreOf [wwEquatorFar] ⟨0, 0, [⟨0, 0, "critical", "erosion", "reported"⟩]⟩ = 0 ∧
    specNearSegment 0 0 [wwEquatorFar] 150 := by
  have hnw := not_nearWaterway_equator_far
  have hwater : waterScoreOf [wwEquatorFar]
      ⟨0, 0, [⟨0, 0, "critical", "erosion", "reported"⟩]⟩ = 0 := by
    unfold waterScoreOf
    rw [isNearWater_false [wwEquatorFar] 0 0 _ hnw]
    norm_num
  refine ⟨?_, hwater, specNearSegment_equator_far⟩
  have hiss : extractIssues [issueCritErosion1] =
      [⟨0, 0, "critical", "erosion", "reported"⟩] := rfl
  have hscore : scoreCell [wwEquatorFar] DEFAULT_PRIORITY_WEIGHTS
      ⟨0, 0, [⟨0, 0, "critical", "erosion", "reported"⟩]⟩ =
      ⟨0, 0, 53/160, 1, 1, false, ["erosion"], ""⟩ := by
    unfold scoreCell rawScoreOf waterScoreOf
    rw [isNearWater_false [wwEquatorFar] 0 0 _ hnw]
    norm_num [densityScore, severityFactor, recurrenceScore, criticalCountOf,
      sevScore, dedupFirst, dedupAux, DEFAULT_PRIORITY_WEIGHTS]
  simp only [computePriorityZones, hiss]
  rw [if_neg (List.cons_ne_nil _ _)]
  rw [grid_single_origin _ rfl rfl]
  simp only [List.filter, List.isEmpty_cons, Bool.not_false, List.map_cons, List.map_nil]
  rw [hscore]
  rw [pipelineOut_single (by norm_num)]

lemma nearWaterway_origin (m : ℝ) (hm : 0 < m) : nearWaterway 0 0 [wwAtOrigin] m := by
  refine ⟨wwAtOrigin, List.mem_singleton_self _, ((0 : ℚ), (0 : ℚ)), ?_, ?_⟩
  · have hverts : geomVertices wwAtOrigin.geom = [((0 : ℚ), (0 : ℚ)), (1, 0)] := rfl
    rw [hverts]
    exact List.mem_cons_self _ _
  · push_cast
    rw [dist_same_point]
    exact hm

lemma grid_two_origin (i : Issue) (h1 : i.lat = 0) (h2 : i.lng = 0) :
    gridCells ((200 : ℚ)/111320) [i, i] = [⟨0, 0, [i, i]⟩] := by
  simp only [gridCells, List.foldl_cons, List.foldl_nil, insertIssue, insertAt,
    cellKeyOf, jsRound, h1, h2]
  norm_num

/-- Claim C7 (spec §8, scenario A): two critical erosion issues in one cell
with a waterway within 50 m and default weights produce the documented
sub-scores (density 0.25, water 1, severity 1, recurrence 0.25), the raw
score 0.625, and a single zone with normalised score 1 and the Critical
label. -/
theorem claim_C7_scenario_a :
    gridCells ((200 : ℚ)/111320)
        (extractIssues [issueCritErosion1, issueCritErosion2]) =
      [⟨0, 0, [⟨0, 0, "critical", "erosion", "reported"⟩,
        ⟨0, 0, "critical", "erosion", "reported"⟩]⟩] ∧
    densityScore ⟨0, 0, [⟨0, 0, "critical", "erosion", "reported"⟩,
      ⟨0, 0, "critical", "erosion", "reported"⟩]⟩ = 25/100 ∧
    waterScoreOf [wwAtOrigin] ⟨0, 0, [⟨0, 0, "critical", "erosion", "reported"⟩,
      ⟨0, 0, "critical", "erosion", "reported"⟩]⟩ = 1 ∧
    severityFactor ⟨0, 0, [⟨0, 0, "critical", "erosion", "reported"⟩,
      ⟨0, 0, "critical", "erosion", "reported"⟩]⟩ = 1 ∧
    recurrenceScore ⟨0, 0, [⟨0, 0, "critical", "erosion", "reported"⟩,
      ⟨0, 0, "critical", "erosion", "reported"⟩]⟩ = 25/100 ∧
    rawScoreOf [wwAtOrigin] DEFAULT_PRIORITY_WEIGHTS
      ⟨0, 0, [⟨0, 0, "critical", "erosion", "reported"⟩,
        ⟨0, 0, "critical", "erosion", "reported"⟩]⟩ = 625/1000 ∧
    nearWaterway 0 0 [wwAtOrigin] 50 ∧
    computePriorityZones [issueCritErosion1, issueCritErosion2] [wwAtOrigin] []
        DEFAULT_PRIORITY_WEIGHTS 200 =
      [⟨0, 0, 1, 2, 2, true, ["erosion"], "Critical Priority"⟩] := by
  have hnear : nearWaterway 0 0 [wwAtOrigin] 150 := nearWaterway_origin 150 (by norm_num)
  have hwater : waterScoreOf [wwAtOrigin] ⟨0, 0, [⟨0, 0, "critical", "erosion", "reported"⟩,
      ⟨0, 0, "critical", "erosion", "reported"⟩]⟩ = 1 := by
    unfold waterScoreOf
    rw [isNearWater_true [wwAtOrigin] 0 0 _ hnear]
    norm_num
  have hdens : densityScore ⟨0, 0, [⟨0, 0, "critical", "erosion", "reported"⟩,
      ⟨0, 0, "critical", "erosion", "reported"⟩]⟩ = 25/100 := by
    norm_num [densityScore]
  have hsev : severityFactor ⟨0, 0, [⟨0, 0, "critical", "erosion", "reported"⟩,
      ⟨0, 0, "critical", "erosion", "reported"⟩]⟩ = 1 := by
    norm_num [severityFactor, sevScore]
  have hrec : recurrenceScore ⟨0, 0, [⟨0, 0, "critical", "erosion", "reported"⟩,
      ⟨0, 0, "critical", "erosion", "reported"⟩]⟩ = 25/100 := by
    norm_num [recurrenceScore, dedupFirst, dedupAux]
  have hraw : rawScoreOf [wwAtOrigin] DEFAULT_PRIORITY_WEIGHTS
      ⟨0, 0, [⟨0, 0, "critical", "erosion", "reported"⟩,
        ⟨0, 0, "critical", "erosion", "reported"⟩]⟩ = 625/1000 := by
    unfold rawScoreOf
    rw [hwater, hdens, hsev, hrec]
    norm_num [DEFAULT_PRIORITY_WEIGHTS]
  have hiss : extractIssues [issueCritErosion1, issueCritErosion2] =
      [⟨0, 0, "critical", "erosion", "reported"⟩,
        ⟨0, 0, "critical", "erosion", "reported"⟩] := rfl
  have hgrid := grid_two_origin ⟨0, 0, "critical", "erosion", "reported"⟩ rfl rfl
  refine ⟨by rw [hiss]; exact hgrid, hdens, hwater, hsev, hrec, hraw,
    nearWaterway_origin 50 (by norm_num), ?_⟩
  have hscore : scoreCell [wwAtOrigin] DEFAULT_PRIORITY_WEIGHTS
      ⟨0, 0, [⟨0, 0, "critical", "erosion", "reported"⟩,
        ⟨0, 0, "critical", "erosion", "reported"⟩]⟩ =
      ⟨0, 0, 625/1000, 2, 2, true, ["erosion"], ""⟩ := by
    unfold scoreCell
    rw [hraw, isNearWater_true [wwAtOrigin] 0 0 _ hnear]
    norm_num [criticalCountOf, dedupFirst, dedupAux]
  simp only [computePriorityZones, hiss]
  rw [if_neg (List.cons_ne_nil _ _)]
  rw [hgrid]
  simp only [List.filter, List.isEmpty_cons, Bool.not_false, List.map_cons, List.map_nil]
  rw [hscore]
  rw [pipelineOut_single (by norm_num)]

/-- Witness for claim C5: a feature with missing geometry is skipped from a
concrete batch without changing the resulting map. -/
theorem claim_C5_witness :
    (∀ pt, evalFeature (fun _ cs => cs.head?.map Prod.fst) pt
        ⟨none, some ("Bad Creek"), none, none, none, none⟩ = none) ∧
    nearestWaterwayMap (fun _ cs => cs.head?.map Prod.fst)
        [⟨some (.point (0, 0)), none, some ("i1"), none, none, none⟩]
        ([⟨some (.lineString [(5, 0)]), some ("A"), none, none, none, none⟩] ++
          ⟨none, some ("Bad Creek"), none, none, none, none⟩ ::
          [⟨some (.lineString [(3, 0)]), some ("B"), none, none, none, none⟩]) =
      nearestWaterwayMap (fun _ cs => cs.head?.map Prod.fst)
        [⟨some (.point (0, 0)), none, some ("i1"), none, none, none⟩]
        ([⟨some (.lineString [(5, 0)]), some ("A"), none, none, none, none⟩] ++
          [⟨some (.lineString [(3, 0)]), some ("B"), none, none, none, none⟩]) :=
  ⟨fun _ => rfl,
    (claim_C5_malformed_feature_isolated (fun _ cs => cs.head?.map Prod.fst)
      [⟨some (.point (0, 0)), none, some ("i1"), none, none, none⟩]
      [⟨some (.lineString [(5, 0)]), some ("A"), none, none, none, none⟩]
      [⟨some (.lineString [(3, 0)]), some ("B"), none, none, none, none⟩]
      ⟨none, some ("Bad Creek"), none, none, none, none⟩ (fun _ => rfl)).1⟩

/-- Witness for claim C6: with two concrete waterways at distances 5 and 3
feet, the locator picks the nearer one. -/
theorem claim_C6_witness :
    (⟨some (.lineString [(5, 0)]), some ("A"), none, none, none, none⟩ : Feat) ∈
      [⟨some (.lineString [(5, 0)]), some ("A"), none, none, none, none⟩,
        (⟨some (.lineString [(3, 0)]), some ("B"), none, none, none, none⟩ : Feat)] ∧
    evalFeature (fun _ cs => cs.head?.map Prod.fst) (0, 0)
      ⟨some (.lineString [(5, 0)]), some ("A"), none, none, none, none⟩ = some 5 ∧
    (∃ fm ∈ [(⟨some (.lineString [(5, 0)]), some ("A"), none, none, none, none⟩ : Feat),
        ⟨some (.lineString [(3, 0)]), some ("B"), none, none, none, none⟩], ∃ vm,
      evalFeature (fun _ cs => cs.head?.map Prod.fst) (0, 0) fm = some vm ∧
      (∀ f ∈ [(⟨some (.lineString [(5, 0)]), some ("A"), none, none, none, none⟩ : Feat),
          ⟨some (.lineString [(3, 0)]), some ("B"), none, none, none, none⟩], ∀ v,
        evalFeature (fun _ cs => cs.head?.map Prod.fst) (0, 0) f = some v → vm ≤ v) ∧
      issueEntry (fun _ cs => cs.head?.map Prod.fst)
        [⟨some (.lineString [(5, 0)]), some ("A"), none, none, none, none⟩,
          ⟨some (.lineString [(3, 0)]), some ("B"), none, none, none, none⟩]
        ⟨some (.point (0, 0)), none, some ("i1"), none, none, none⟩ =
        some ("i1", ⟨nameOrDefault fm.name, jsRound vm⟩)) :=
  ⟨List.mem_cons_self _ _, rfl,
    claim_C6_locator_returns_minimum (fun _ cs => cs.head?.map Prod.fst)
      [⟨some (.lineString [(5, 0)]), some ("A"), none, none, none, none⟩,
        ⟨some (.lineString [(3, 0)]), some ("B"), none, none, none, none⟩]
      (0, 0) "i1" ⟨some (.point (0, 0)), none, some ("i1"), none, none, none⟩
      ⟨some (.lineString [(5, 0)]), some ("A"), none, none, none, none⟩ 5
      (List.mem_cons_self _ _) rfl rfl rfl (by decide)⟩
